import Mathlib

/-!
Verification development for the Showcase repository: a shallow embedding of
the model-provider adapter, the portfolio read endpoint, the file/code
toolkits and the integration layer, together with theorems settling the
behavioural claims about them.
-/

set_option maxHeartbeats 1000000

namespace Showcase

/-! ## List-level helpers shared by the embeddings -/

/-- Decidable infix (substring) test on character lists, used to embed
Python's `"429" in str(e)` membership check. -/
def isInfixOfB (pat : List Char) : List Char → Bool
  | [] => pat.isEmpty
  | c :: rest => pat.isPrefixOf (c :: rest) || isInfixOfB pat rest

/-! ## Model provider adapter (`src/app/adapters/gemini_adapter.py` and
`src/agents/model.py`)

The provider itself is external; a call's outcome is abstracted as either a
response object carrying optional text, or a raised exception carrying the
exception's string form (the adapter's handler only ever consults `str(e)`).
The temporal behaviour (blocking sleeps, provider requests) is recorded as an
explicit event trace. -/

/-- Outcome of the underlying `generate_content` provider call:
a response whose `.text` is `none` (missing/falsy response or missing text
attribute) or `some t`, or an exception with message `msg` (its `str(e)`). -/
inductive ProviderOutcome
  | resp (text : Option String)
  | raises (msg : String)
deriving DecidableEq

/-- Constant `RATE_LIMIT_DELAY` from `src/agents/model.py` (seconds). -/
def RATE_LIMIT_DELAY : Nat := 15

/-- Observable events of an adapter call: a blocking sleep of a given number
of seconds, or the issuing of a provider request. -/
inductive ModelEvent
  | sleep (seconds : Nat)
  | providerCall
deriving DecidableEq

/-- Exception hierarchy of `src/app/adapters/gemini_adapter.py`. -/
inductive GeminiError
  | apiError (msg : String)
  | responseParseError (msg : String)
  | emptyResponseError (msg : String)
  | rateLimitError (msg : String)
deriving DecidableEq

/-- Embedding of `GeminiAdapter.vision_to_text` (`src/app/adapters/gemini_adapter.py`,
lines 33-48).  The `try` body either returns the response text or raises:
the `GeminiEmptyResponseError` raised for a textless response is raised
*inside* the `try`, so it reaches the `except Exception` clause like any
provider exception and is rewrapped there.  The handler raises
`GeminiRateLimitError` when `"429"` occurs in `str(e)` and otherwise
`GeminiAPIError` with the `f"Gemini API Error: {str(e)}"` message.  The
returned trace records that exactly one provider request is issued, with no
preceding sleep. -/
def vision_to_text (o : ProviderOutcome) : List ModelEvent × Except GeminiError String :=
  let events := [ModelEvent.providerCall]
  let tryResult : Except String String :=
    match o with
    | .raises msg => .error msg
    | .resp none => .error "Empty response from Gemini"
    | .resp (some t) => if t = "" then .error "Empty response from Gemini" else .ok t
  match tryResult with
  | .ok t => (events, .ok t)
  | .error msg =>
    if isInfixOfB "429".data msg.data then
      (events, .error (.rateLimitError "Rate limit reached"))
    else
      (events, .error (.apiError ("Gemini API Error: " ++ msg)))

/-- Event trace of `RateLimitedGemini.response` (`src/agents/model.py`,
lines 18-22): a blocking `time.sleep(RATE_LIMIT_DELAY)` immediately followed
by the provider request issued through `super().response`. -/
def rateLimited_response_events : List ModelEvent :=
  [ModelEvent.sleep RATE_LIMIT_DELAY, ModelEvent.providerCall]

/-- A trace satisfies the fixed-delay discipline when every provider request
in it is immediately preceded by a sleep of `RATE_LIMIT_DELAY` seconds. -/
def eachCallDelayed : List ModelEvent → Bool
  | [] => true
  | ModelEvent.sleep d :: ModelEvent.providerCall :: rest =>
    (d == RATE_LIMIT_DELAY) && eachCallDelayed rest
  | ModelEvent.sleep _ :: rest => eachCallDelayed rest
  | ModelEvent.providerCall :: _ => false

/-! ## JSON-like values

Used both for HTTP error-detail bodies (Python dicts serialized by the web
framework) and for the JSON files edited by `update_json_file`. -/

/-- JSON values; objects keep field order, as Python dicts do. -/
inductive Json
  | null
  | bool (b : Bool)
  | num (n : Int)
  | str (s : String)
  | arr (xs : List Json)
  | obj (fields : List (String × Json))

/-- First-match association lookup on a JSON object's field list. -/
def jlookup (fields : List (String × Json)) (k : String) : Option Json :=
  match fields with
  | [] => none
  | (k', v) :: rest => if k' = k then some v else jlookup rest k

/-- Embeds Python's `x if x else None` pattern for optional strings. -/
def optStrJson : Option String → Json
  | some s => .str s
  | none => .null

/-! ## Job and Portfolio records, and the portfolio read endpoint
(`src/app/api/v1/portfolio.py`)

The `Job` ORM model itself is not among the source files; its fields are
those the handler reads, with the status enum's members exactly as the
handler and the spec name them. -/

/-- Job status enum (`JobStatus`), members as used by
`src/app/api/v1/portfolio.py` and listed in the spec. -/
inductive JobStatus
  | pending
  | processing
  | ocrExtracting
  | aiGenerating
  | validating
  | completed
  | failed
deriving DecidableEq

/-- Modelled from the spec: the string form `job.status.value` of each enum
member (the enum declaration is outside the provided sources). -/
def JobStatus.value : JobStatus → String
  | .pending => "pending"
  | .processing => "processing"
  | .ocrExtracting => "ocr_extracting"
  | .aiGenerating => "ai_generating"
  | .validating => "validating"
  | .completed => "completed"
  | .failed => "failed"

/-- The fields of the persisted Job record that the read endpoint consults. -/
structure Job where
  job_id : String
  status : JobStatus
  progress_percentage : Int
  current_stage : String
  error_message : Option String
  error_details : Option String
  portfolio_id : Option String
deriving DecidableEq

/-- The fields of the persisted Portfolio record that the read endpoint
returns (content is the stored generated-content blob). -/
structure Portfolio where
  id : Nat
  user_id : String
  job_id : String
  full_name : String
  content : Json

/-- The database state visible to the handler: the portfolio and job
tables, queried first-match like the ORM `.first()` calls. -/
structure DB where
  portfolios : List Portfolio
  jobs : List Job

/-- Result of the handler: a portfolio payload, or an `HTTPException` with a
status code and a structured detail body. -/
inductive HandlerResult
  | ok (p : Portfolio)
  | httpError (code : Nat) (detail : List (String × Json))

/-- The HTTP status code of a handler result (`none` for a 200 payload). -/
def HandlerResult.code : HandlerResult → Option Nat
  | .ok _ => none
  | .httpError c _ => some c

/-- A named field of the error-detail body of a handler result. -/
def HandlerResult.detailField (r : HandlerResult) (k : String) : Option Json :=
  match r with
  | .ok _ => none
  | .httpError _ d => jlookup d k

/-- Embedding of `get_portfolio_by_job` (`src/app/api/v1/portfolio.py`, lines 72-183):
returns the portfolio when one matches `job_id`; otherwise inspects the job:
404 when the job is also absent, 424 on FAILED (with nested error info when
`error_message` is truthy), 202 with progress fields while in a non-terminal
in-progress state, 500 when the job is COMPLETED yet the portfolio row is
missing, and a fallback 404 for any other status.  Logging statements (and
the diagnostic `all_portfolios` query on the 500 path) have no observable
effect and are omitted. -/
def get_portfolio_by_job (db : DB) (job_id : String) : HandlerResult :=
  match db.portfolios.find? (fun p => p.job_id == job_id) with
  | some portfolio => .ok portfolio
  | none =>
    match db.jobs.find? (fun j => j.job_id == job_id) with
    | none =>
      .httpError 404
        [("message", .str ("Job " ++ job_id ++ " not found. Please check your job_id and try again.")),
         ("job_id", .str job_id),
         ("suggestion", .str "Verify the job_id is correct. You can check all jobs at /api/v1/debug/jobs (development only)")]
    | some job =>
      if job.status = JobStatus.failed then
        let error_info : Json :=
          match job.error_message with
          | some m =>
            if m = "" then .null
            else
              .obj [("message", .str m),
                    ("stage", .str job.current_stage),
                    ("details", optStrJson job.error_details)]
          | none => .null
        .httpError 424
          [("message", .str "Portfolio generation failed."),
           ("job_id", .str job_id),
           ("status", .str job.status.value),
           ("error", error_info),
           ("suggestion", .str "Please try uploading your resume again or check the error details."),
           ("debug_endpoint", .str ("/api/v1/debug/jobs/" ++ job_id ++ " (development only)"))]
      else if [JobStatus.pending, JobStatus.processing, JobStatus.ocrExtracting,
               JobStatus.aiGenerating, JobStatus.validating].contains job.status then
        .httpError 202
          [("message", .str "Portfolio is still being generated. Please check back in a moment."),
           ("job_id", .str job_id),
           ("status", .str job.status.value),
           ("progress_percentage", .num job.progress_percentage),
           ("current_stage", .str job.current_stage),
           ("suggestion", .str ("Check job status at /api/v1/jobs/" ++ job_id ++ " or wait a few seconds and try again.")),
           ("debug_endpoint", .str ("/api/v1/debug/jobs/" ++ job_id ++ " (development only)"))]
      else if job.status = JobStatus.completed then
        .httpError 500
          [("message", .str "Portfolio not found despite job completion. This may indicate a database issue."),
           ("job_id", .str job_id),
           ("status", .str job.status.value),
           ("job_portfolio_id", optStrJson job.portfolio_id),
           ("suggestion", .str "Please contact support or try uploading your resume again."),
           ("debug_endpoint", .str ("/api/v1/debug/jobs/" ++ job_id ++ " (development only)"))]
      else
        .httpError 404
          [("message", .str "Portfolio not found."),
           ("job_id", .str job_id),
           ("status", .str job.status.value),
           ("suggestion", .str ("Check job status at /api/v1/jobs/" ++ job_id ++ " for more information.")),
           ("debug_endpoint", .str ("/api/v1/debug/jobs/" ++ job_id ++ " (development only)"))]

/-! ## Python string primitives

`str.replace`, `str.count`, `str.split` and slicing, embedded on character
lists.  The non-empty-needle scanners take a fuel argument (the input
length suffices) to make them structurally recursive; the zero-fuel guard is
unreachable at that fuel. -/

/-- Python `str.replace(find, replace)` scan for a non-empty `find`: at each
position, a match is replaced (non-overlapping, left to right) and the scan
resumes after it. -/
def pyReplaceNE (find repl : List Char) : Nat → List Char → List Char
  | _, [] => []
  | 0, l => l
  | Nat.succ fuel, c :: rest =>
    if find.isPrefixOf (c :: rest) then
      repl ++ pyReplaceNE find repl fuel (rest.drop (find.length - 1))
    else
      c :: pyReplaceNE find repl fuel rest

/-- Python `str.count(find)` scan for a non-empty `find`: counts non-overlapping
occurrences left to right. -/
def pyCountNE (find : List Char) : Nat → List Char → Nat
  | _, [] => 0
  | 0, _ => 0
  | Nat.succ fuel, c :: rest =>
    if find.isPrefixOf (c :: rest) then
      1 + pyCountNE find fuel (rest.drop (find.length - 1))
    else
      pyCountNE find fuel rest

/-- Python's `s.replace("", r)` inserts `r` around every character. -/
def interleave (repl : List Char) : List Char → List Char
  | [] => repl
  | c :: rest => repl ++ c :: interleave repl rest

/-- Python `str.replace` (all occurrences). -/
def pyReplace (s find repl : String) : String :=
  if find = "" then ⟨interleave repl.data s.data⟩
  else ⟨pyReplaceNE find.data repl.data s.data.length s.data⟩

/-- Python `str.count`. -/
def pyCount (s find : String) : Nat :=
  if find = "" then s.data.length + 1
  else pyCountNE find.data s.data.length s.data

/-- Python slice `s[:n]` (by code point, like `List.take`). -/
def pySlice (s : String) (n : Nat) : String := ⟨s.data.take n⟩

/-- Python `str.split(sep)` with a single-character separator. -/
def splitOnChar (sep : Char) : List Char → List (List Char)
  | [] => [[]]
  | c :: rest =>
    match splitOnChar sep rest with
    | [] => [[]]
    | cur :: parts => if c = sep then [] :: cur :: parts else (c :: cur) :: parts

/-- Python `key.split(".")` used for dot-notation JSON paths. -/
def pySplitDot (s : String) : List String :=
  (splitOnChar '.' s.data).map (fun l => ⟨l⟩)

/-! ## Code modification toolkit (`src/agents/tools/code_tools.py`)

Each tool reads a file, transforms its text and possibly writes it back.
A file is `Option String`: `none` when the path does not exist.  Each model
returns the tool's result message together with the file's content after the
call; a write happens exactly when that content differs from the input. -/

/-- Embedding of `CodeModificationTools.find_and_replace` (lines 47-87) with the default
`count=-1` (replace all).  Returns the message and the file content after
the call; on the not-found and no-match paths the content is returned
unchanged and no write occurs. -/
def find_and_replace (file_path : String) (file : Option String) (find replace : String) :
    String × Option String :=
  match file with
  | none => ("Error: File not found: " ++ file_path, none)
  | some content =>
    let new_content := pyReplace content find replace
    let replacements := pyCount content find
    if new_content = content then
      ("No matches found for: " ++ pySlice find 50 ++ "...", some content)
    else
      ("Replaced " ++ toString replacements ++ " occurrence(s) in " ++ file_path,
       some new_content)

/-! ### CSS variable update

`update_css_variable` substitutes with the regex
`(name\s*:\s*)([^;]+)(;)` where `name` is the `re.escape`d variable name, so
the name is matched literally.  A match at a position is: the name, zero or
more whitespace characters, `:`, then (greedy `\s*` backtracking into the
mandatory `[^;]+`) at least one non-`;` character up to a `;`.  The
replacement keeps group 1 (name, whitespace, colon and the whitespace kept
by `\s*`) and the `;`, substituting the new value for group 2. -/

/-- Python's `\s` character class (ASCII range). -/
def pyIsSpace (c : Char) : Bool :=
  c == ' ' || c == '\t' || c == '\n' || c == '\r' || c == '\x0b' || c == '\x0c'

/-- Regex match of `name\s*:\s*[^;]+;` at the head of `l`.  On success
returns group 1 (everything before the value) and the text after the
matched `;`. -/
def cssMatchAt (name : List Char) (l : List Char) : Option (List Char × List Char) :=
  if name.isPrefixOf l then
    let l1 := l.drop name.length
    let ws1 := l1.takeWhile pyIsSpace
    let l2 := l1.drop ws1.length
    match l2 with
    | ':' :: l3 =>
      let pre := l3.takeWhile (fun c => c != ';')
      match l3.drop pre.length with
      | ';' :: tail =>
        if pre.length = 0 then none
        else
          let s := (pre.takeWhile pyIsSpace).length
          let ws2 := pre.take (min s (pre.length - 1))
          some (name ++ ws1 ++ ':' :: ws2, tail)
      | _ => none
    | _ => none
  else none

/-- Python `re.subn` for the CSS-variable pattern: non-overlapping left-to-right
substitution, returning the new text and the number of matches.  Fuel is the
input length. -/
def cssSubn (name newval : List Char) : Nat → List Char → List Char × Nat
  | _, [] => ([], 0)
  | 0, l => (l, 0)
  | Nat.succ fuel, c :: rest =>
    match cssMatchAt name (c :: rest) with
    | some (g1, tail) =>
      let r := cssSubn name newval fuel tail
      (g1 ++ newval ++ ';' :: r.1, r.2 + 1)
    | none =>
      let r := cssSubn name newval fuel rest
      (c :: r.1, r.2)

/-- The `--`-normalized variable name used by `update_css_variable`
(Python's `variable_name.startswith("--")` check). -/
def normCssName (variable_name : String) : String :=
  if "--".data.isPrefixOf variable_name.data then variable_name
  else "--" ++ variable_name

/-- Embedding of `CodeModificationTools.update_css_variable` (lines 89-132).  Returns the
message and the file content after the call. -/
def update_css_variable (file_path : String) (file : Option String)
    (variable_name new_value : String) : String × Option String :=
  match file with
  | none => ("Error: File not found: " ++ file_path, none)
  | some content =>
    let name := normCssName variable_name
    let r := cssSubn name.data new_value.data content.data.length content.data
    if r.2 = 0 then
      ("CSS variable not found: " ++ name, some content)
    else
      ("Updated " ++ name ++ " to " ++ new_value, some ⟨r.1⟩)

/-! ### JSON file update -/

/-- Replace the first binding of `k` (Python dict assignment on a parsed
JSON object), appending when absent. -/
def setKey (fields : List (String × Json)) (k : String) (v : Json) :
    List (String × Json) :=
  match fields with
  | [] => [(k, v)]
  | (k', v') :: rest => if k' = k then (k', v) :: rest else (k', v') :: setKey rest k v

/-- Embedding of `CodeModificationTools._set_nested` (lines 362-366): walks
`keys[:-1]` with `setdefault(key, {})` — creating an empty object for a
missing intermediate — then assigns the final key.  Traversing or assigning
into a non-object value raises in Python; that is the `none` result. -/
def setNested (j : Json) (keys : List String) (v : Json) : Option Json :=
  match j with
  | .obj fields =>
    match keys with
    | [] => none
    | [k] => some (.obj (setKey fields k v))
    | k :: rest =>
      let child := match jlookup fields k with
        | some c => c
        | none => .obj []
      match setNested child rest v with
      | some child2 => some (.obj (setKey fields k child2))
      | none => none
  | _ => none

/-- Sequential application of the `updates.items()` loop of
`update_json_file`. -/
def applyUpdates (j : Json) : List (String × Json) → Option Json
  | [] => some j
  | (k, v) :: rest =>
    match setNested j (pySplitDot k) v with
    | some j2 => applyUpdates j2 rest
    | none => none

/-- The on-disk state of a JSON file: absent, present but unparseable, or
parsed. -/
inductive JsonFileState
  | missing
  | invalid (raw : String)
  | parsed (j : Json)

/-- A tool call's outcome: the returned message, or a Python exception
message produced by the interpreter (whose exact text is not modelled). -/
inductive JsonUpdateOutcome
  | output (msg : String)
  | pyExnOutcome

/-- Embedding of `CodeModificationTools.update_json_file` (lines 134-167).  Returns the
outcome and the file state after the call. -/
def update_json_file (file_path : String) (file : JsonFileState)
    (updates : List (String × Json)) : JsonUpdateOutcome × JsonFileState :=
  match file with
  | .missing => (.output ("Error: File not found: " ++ file_path), .missing)
  | .invalid raw => (.output ("Error: Invalid JSON in " ++ file_path), .invalid raw)
  | .parsed j =>
    match applyUpdates j updates with
    | some j2 =>
      (.output ("Updated " ++ toString updates.length ++ " key(s) in " ++ file_path),
       .parsed j2)
    | none => (.pyExnOutcome, .parsed j)

/-- The nested object chain the claim expects `_set_nested` to create for a
run of missing path components: `buildNested [k1, …, kn] v` is
`{k1: {… {kn: v} …}}`. -/
def buildNested : List String → Json → Json
  | [], v => v
  | k :: rest, v => .obj [(k, buildNested rest v)]

/-! ## File system toolkit (`src/agents/tools/file_tools.py`)

Directories are trees; the templates directory and the output directory are
association lists from entry name to tree.  `copy_template`'s effects are
recorded as an ordered list of file-system operations. -/

/-- A directory entry: a file with text content, or a directory of named
entries. -/
inductive DirTree
  | file (content : String)
  | dir (entries : List (String × DirTree))

/-- Destructive file-system operations performed by `copy_template`. -/
inductive FsOp
  | rmtreeOp (name : String)
  | copytreeOp (name : String)
deriving DecidableEq

/-- First-match lookup of a named entry in a directory listing. -/
def dlookup (l : List (String × DirTree)) (k : String) : Option DirTree :=
  match l with
  | [] => none
  | (k', v) :: rest => if k' = k then some v else dlookup rest k

/-- The destination entry name: Python's `output_name or template_id`
(an empty string is falsy). -/
def destNameOf (output_name : Option String) (template_id : String) : String :=
  match output_name with
  | some s => if s = "" then template_id else s
  | none => template_id

/-- Replace (or create) the named entry of a directory listing; the entry's
previous tree is discarded entirely, as `shutil.rmtree` followed by
`shutil.copytree` does. -/
def setEntry (l : List (String × DirTree)) (k : String) (v : DirTree) :
    List (String × DirTree) :=
  l.filter (fun p => !(p.1 = k : Bool)) ++ [(k, v)]

/-- Embedding of `FileSystemTools.copy_template` (`src/agents/tools/file_tools.py`,
lines 126-154): errors when the template directory is absent; otherwise
removes any existing directory at the destination (`shutil.rmtree`) and then
copies the template there (`shutil.copytree`).  Returns the message, the
output directory after the call and the ordered operations performed. -/
def copy_template (templates output : List (String × DirTree))
    (template_id : String) (output_name : Option String) (output_dir : String) :
    String × List (String × DirTree) × List FsOp :=
  match dlookup templates template_id with
  | none => ("Error: Template not found: " ++ template_id, output, [])
  | some tree =>
    let dest_name := destNameOf output_name template_id
    let existed := (dlookup output dest_name).isSome
    let ops := (if existed then [FsOp.rmtreeOp dest_name] else []) ++ [FsOp.copytreeOp dest_name]
    ("Template copied to: " ++ output_dir ++ "/" ++ dest_name,
     setEntry output dest_name tree, ops)

/-! ## Integration layer (`src/agents/integration.py`) -/

/-- Truthiness of an optional string field of the parsed-resume dict
(`None` and `""` are falsy). -/
def truthyStr : Option String → Bool
  | some s => s ≠ ""
  | none => false

/-- The parsed-resume dictionary fields consulted by `validate_input` and
the generation pipeline (`parsed_data.get(...)`; a missing key reads as
`None`/empty). -/
structure ParsedData where
  name : Option String := none
  email : Option String := none
  skills : List String := []
  projects : List String := []
  experience : List String := []
  education : List String := []
  job_title : Option String := none

/-- Embedding of `validate_input` (`src/agents/integration.py`, lines 50-70): requires a
truthy `name` or `email`, and that at least one of the `skills`, `projects`
and `experience` collections is non-empty. -/
def validate_input (d : ParsedData) : Bool × Option String :=
  if !truthyStr d.name && !truthyStr d.email then
    (false, some "At least one of 'name' or 'email' is required")
  else if d.skills.isEmpty && d.projects.isEmpty && d.experience.isEmpty then
    (false, some "At least one of 'skills', 'projects', or 'experience' must be provided")
  else
    (true, none)

/-- Modelled from the spec: the structured output of the content-synthesis
stage (the `PortfolioOutput` schema of `app/schemas/portfolio.py` is not
among the provided sources, and the synthesis itself is one structured LLM
call).  Per §4.3, the synthesis must not invent facts: a field whose source
data is missing is emitted empty while preserving schema validity, and
present fields are carried over from the profile. -/
structure PortfolioOutput where
  name : String
  skills : List String
  experience : List String
  education : List String
  projects : List String

/-- Modelled from the spec: content synthesis (§4.3) as the identity-on-facts
mapping from profile fields to schema fields — empty source data yields
empty arrays, present data is carried over. -/
def synthesizeContent (d : ParsedData) : PortfolioOutput :=
  { name := d.name.getD ""
    skills := d.skills
    experience := d.experience
    education := d.education
    projects := d.projects }

/-- The successful result of `generate_portfolio`: the structured portfolio
data plus the selected template. -/
structure GenerationOk where
  portfolio_data : PortfolioOutput
  template_id : String

/-- The module-level names defined by `src/agents/teams/generation_team.py`
(its own bindings and the names it imports), which are exactly the names a
`from agents.teams.generation_team import ...` statement can import. -/
def generation_team_exports : List String :=
  ["os", "Agent", "Team", "TemplateRegistryTools", "get_model",
   "GEMINI_MODEL", "schema_agent", "content_agent", "template_selector",
   "generation_team"]

/-- Result of `generate_portfolio`: a raised `ValidationError` carrying the
message `validate_input` produced, a raised `GenerationError` (whose text
wraps `str(exc)` of the underlying exception, an interpreter-generated
message that is not modelled), or a successful result. -/
inductive GenerationResult
  | validationFailure (msg : Option String)
  | generationFailure
  | success (r : GenerationOk)

/-- Embedding of `generate_portfolio` (`src/agents/integration.py`,
lines 75-179): validates the input, raising `ValidationError` with the
validator's message on failure.  The `try` block then begins with
`from agents.teams.generation_team import portfolio_creator, template_selector`
— but `src/agents/teams/generation_team.py` defines no `portfolio_creator`,
so the import raises `ImportError`, which the trailing `except Exception`
rewraps as `GenerationError`.  The continuation after the import (content
synthesis via the spec-modelled `synthesizeContent`, then template selection
whose LLM-chosen identifier is the `template_choice` parameter) is kept for
completeness but is unreachable. -/
def generate_portfolio (d : ParsedData) (template_choice : String) :
    GenerationResult :=
  let v := validate_input d
  if v.1 = false then
    .validationFailure v.2
  else if generation_team_exports.contains "portfolio_creator" then
    .success { portfolio_data := synthesizeContent d, template_id := template_choice }
  else
    .generationFailure

/-- Which export branch of `export_portfolio` performed work. -/
inductive ExportBranch
  | jsonDump
  | yamlDump
  | htmlPreview
deriving DecidableEq

/-- Result of `export_portfolio`: a raised `ValidationError`, a raised
`GenerationError`, or a completed export through one of the branches. -/
inductive ExportResult
  | validationErr (msg : String)
  | generationErr (msg : String)
  | exported (branch : ExportBranch)
deriving DecidableEq

/-- Embedding of `export_portfolio` (`src/agents/integration.py`, lines 239-280): checks
that the portfolio is a dictionary, then that the format is one of
`json`/`yaml`/`html_preview` — raising `ValidationError` before the `try`
block in which any serialization work happens — and only then performs the
selected export. -/
def export_portfolio (portfolio : Json) (format : String) : ExportResult :=
  let isDict := match portfolio with
    | .obj _ => true
    | _ => false
  if !isDict then
    .validationErr "portfolio must be a dictionary"
  else if !(["json", "yaml", "html_preview"].contains format) then
    .validationErr ("Unsupported export format: " ++ format)
  else if format = "json" then
    .exported .jsonDump
  else if format = "yaml" then
    .exported .yamlDump
  else
    .exported .htmlPreview

end Showcase

namespace Showcase

/-! ## Theorems for claims C1 and C4 -/

/-- C1: a provider response with no text does NOT surface as
`GeminiEmptyResponseError`: the raise sits inside the `try` block, so the
blanket `except Exception` rewraps it and `vision_to_text` fails with
`GeminiAPIError "Gemini API Error: Empty response from Gemini"` instead.
This evaluates the adapter at the failing input (a response whose text is
the empty string), exhibiting the divergence from the documented
EmptyResponse failure mode. -/
theorem vision_empty_yields_api_error :
    (vision_to_text (ProviderOutcome.resp (some ""))).2
      = Except.error (GeminiError.apiError "Gemini API Error: Empty response from Gemini")
    ∧ (vision_to_text (ProviderOutcome.resp (some ""))).2
      ≠ Except.error (GeminiError.emptyResponseError "Empty response from Gemini") := by
  constructor
  · rfl
  · intro h
    simp [vision_to_text, isInfixOfB] at h

/-- C4 counterexample: the vision/OCR path `GeminiAdapter.vision_to_text`
issues its provider request with no preceding fixed delay — its trace
contains a provider call and fails the delay discipline — refuting the claim
that every code path calling the provider performs the blocking wait
first. -/
theorem vision_call_without_delay :
    eachCallDelayed (vision_to_text (ProviderOutcome.resp (some "text"))).1 = false
    ∧ ModelEvent.providerCall ∈ (vision_to_text (ProviderOutcome.resp (some "text"))).1 := by
  decide

/-- C4 amended: the fixed blocking delay is performed immediately before the
provider request in `RateLimitedGemini.response` (the agent-team call path):
its trace contains a provider call and satisfies the delay discipline. -/
theorem rateLimited_response_delayed :
    eachCallDelayed rateLimited_response_events = true
    ∧ ModelEvent.providerCall ∈ rateLimited_response_events := by
  decide

/-- C2: reading a job that is COMPLETED while no Portfolio row matches its
job_id yields the dedicated data-integrity error: HTTP 500 with a message
naming the job-completed-but-portfolio-missing condition, and never the
generic 404 not-found response used when neither job nor portfolio
exists. -/
theorem get_portfolio_completed_missing (db : DB) (job_id : String) (job : Job)
    (hp : db.portfolios.find? (fun p => p.job_id == job_id) = none)
    (hj : db.jobs.find? (fun j => j.job_id == job_id) = some job)
    (hs : job.status = JobStatus.completed) :
    (get_portfolio_by_job db job_id).code = some 500
    ∧ (get_portfolio_by_job db job_id).detailField "message"
        = some (.str "Portfolio not found despite job completion. This may indicate a database issue.")
    ∧ (get_portfolio_by_job db job_id).code ≠ some 404 := by
  simp [get_portfolio_by_job, hp, hj, hs, HandlerResult.code, HandlerResult.detailField, jlookup]

/-- C2 witness: concrete database with one COMPLETED job and no portfolio. -/
theorem get_portfolio_completed_missing_witness :
    (get_portfolio_by_job ⟨[], [⟨"j1", JobStatus.completed, 100, "Finalizing", none, none, some "p1"⟩]⟩ "j1").code = some 500
    ∧ (get_portfolio_by_job ⟨[], [⟨"j1", JobStatus.completed, 100, "Finalizing", none, none, some "p1"⟩]⟩ "j1").detailField "message"
        = some (.str "Portfolio not found despite job completion. This may indicate a database issue.")
    ∧ (get_portfolio_by_job ⟨[], [⟨"j1", JobStatus.completed, 100, "Finalizing", none, none, some "p1"⟩]⟩ "j1").code ≠ some 404 :=
  get_portfolio_completed_missing
    ⟨[], [⟨"j1", JobStatus.completed, 100, "Finalizing", none, none, some "p1"⟩]⟩ "j1"
    ⟨"j1", JobStatus.completed, 100, "Finalizing", none, none, some "p1"⟩ rfl rfl rfl

/-- C3: reading a job in any non-terminal in-progress state (PENDING,
PROCESSING, OCR_EXTRACTING, AI_GENERATING, VALIDATING) with no Portfolio row
yields HTTP 202 whose body carries the job's `progress_percentage` and
`current_stage`, and never a 404. -/
theorem get_portfolio_in_progress (db : DB) (job_id : String) (job : Job)
    (hp : db.portfolios.find? (fun p => p.job_id == job_id) = none)
    (hj : db.jobs.find? (fun j => j.job_id == job_id) = some job)
    (hs : job.status = JobStatus.pending ∨ job.status = JobStatus.processing
        ∨ job.status = JobStatus.ocrExtracting ∨ job.status = JobStatus.aiGenerating
        ∨ job.status = JobStatus.validating) :
    (get_portfolio_by_job db job_id).code = some 202
    ∧ (get_portfolio_by_job db job_id).detailField "progress_percentage"
        = some (.num job.progress_percentage)
    ∧ (get_portfolio_by_job db job_id).detailField "current_stage"
        = some (.str job.current_stage)
    ∧ (get_portfolio_by_job db job_id).code ≠ some 404 := by
  rcases hs with h | h | h | h | h <;>
    simp [get_portfolio_by_job, hp, hj, h, HandlerResult.code, HandlerResult.detailField, jlookup]

/-- C3 witness: concrete database with one AI_GENERATING job and no
portfolio. -/
theorem get_portfolio_in_progress_witness :
    (get_portfolio_by_job ⟨[], [⟨"j2", JobStatus.aiGenerating, 60, "ai_generation", none, none, none⟩]⟩ "j2").code = some 202
    ∧ (get_portfolio_by_job ⟨[], [⟨"j2", JobStatus.aiGenerating, 60, "ai_generation", none, none, none⟩]⟩ "j2").detailField "progress_percentage"
        = some (.num 60)
    ∧ (get_portfolio_by_job ⟨[], [⟨"j2", JobStatus.aiGenerating, 60, "ai_generation", none, none, none⟩]⟩ "j2").detailField "current_stage"
        = some (.str "ai_generation")
    ∧ (get_portfolio_by_job ⟨[], [⟨"j2", JobStatus.aiGenerating, 60, "ai_generation", none, none, none⟩]⟩ "j2").code ≠ some 404 :=
  get_portfolio_in_progress
    ⟨[], [⟨"j2", JobStatus.aiGenerating, 60, "ai_generation", none, none, none⟩]⟩ "j2"
    ⟨"j2", JobStatus.aiGenerating, 60, "ai_generation", none, none, none⟩ rfl rfl
    (Or.inr (Or.inr (Or.inr (Or.inl rfl))))

/-! ## Lemmas about the scanning primitives -/

/-- A text in which `str.count` finds no occurrence of the needle is left
unchanged by `str.replace`. -/
theorem pyReplaceNE_of_count_zero (find repl : List Char) (fuel : Nat) :
    ∀ l : List Char, pyCountNE find fuel l = 0 → pyReplaceNE find repl fuel l = l := by
  induction fuel with
  | zero => intro l _; cases l <;> rfl
  | succ fuel ih =>
    intro l h
    cases l with
    | nil => rfl
    | cons c rest =>
      by_cases hp : find.isPrefixOf (c :: rest)
      · simp [pyCountNE, hp] at h
      · simp only [pyCountNE, hp, if_neg, ite_false] at h
        simp [pyReplaceNE, hp, ih rest h]

/-- A text in which the CSS-variable pattern matches nowhere is returned
unchanged by `re.subn`. -/
theorem cssSubn_count_zero (name nv : List Char) (fuel : Nat) :
    ∀ l : List Char, (cssSubn name nv fuel l).2 = 0 → (cssSubn name nv fuel l).1 = l := by
  induction fuel with
  | zero => intro l _; cases l <;> rfl
  | succ fuel ih =>
    intro l h
    cases l with
    | nil => rfl
    | cons c rest =>
      cases hm : cssMatchAt name (c :: rest) with
      | none =>
        simp only [cssSubn, hm] at h ⊢
        simp [ih rest h]
      | some pr =>
        simp [cssSubn, hm] at h

/-- Assigning an absent key to a Python dict appends the binding. -/
theorem setKey_absent (k : String) (v : Json) :
    ∀ fields : List (String × Json), jlookup fields k = none →
      setKey fields k v = fields ++ [(k, v)] := by
  intro fields
  induction fields with
  | nil => intro _; rfl
  | cons p rest ih =>
    intro habs
    rcases p with ⟨k', v'⟩
    by_cases h : k' = k
    · simp [jlookup, h] at habs
    · simp only [jlookup, h, if_neg, ite_false] at habs
      simp [setKey, h, ih habs]

/-- Applying `_set_nested` to an empty object builds exactly the nested-singleton
chain of objects ending in the value. -/
theorem setNested_empty_build :
    ∀ (rest : List String) (v : Json), rest ≠ [] →
      setNested (.obj []) rest v = some (buildNested rest v)
  | [], _, h => absurd rfl h
  | [_], _, _ => rfl
  | k :: k2 :: rs, v, _ => by
    have ih := setNested_empty_build (k2 :: rs) v (by simp)
    simp only [setNested, jlookup] at ih ⊢
    rw [ih]
    rfl

/-- Looking up the entry just written by `setEntry` returns the new tree. -/
theorem dlookup_setEntry (k : String) (v : DirTree) :
    ∀ l : List (String × DirTree), dlookup (setEntry l k v) k = some v := by
  intro l
  induction l with
  | nil => simp [setEntry, dlookup]
  | cons p rest ih =>
    rcases p with ⟨a, b⟩
    by_cases h : a = k
    · simpa [setEntry, List.filter, h] using ih
    · simpa [setEntry, List.filter, dlookup, h] using ih

/-! ## Theorems for claims C5 to C10 -/

/-- C5 counterexample: with file text `"a"`, `find = "a"`, `replace = "aa"`,
the first `find_and_replace` yields `"aa"` — the text now contains `replace`
in place of `find` — yet the second application reports two further
replacements and writes `"aaaa"`, refuting the claimed idempotence for
arbitrary `find`/`replace` pairs. -/
theorem find_and_replace_reintroduces :
    (find_and_replace "f.txt" (some "a") "a" "aa").2 = some "aa"
    ∧ find_and_replace "f.txt" (some "aa") "a" "aa"
        = ("Replaced 2 occurrence(s) in f.txt", some "aaaa") := by
  constructor <;> rfl

/-- C5 amended: when `find` is non-empty and the text produced by the first
application contains no further occurrence of `find` (which holds whenever
the replacement does not reintroduce it), the second application reports the
no-matches result and returns the content unchanged — no write occurs. -/
theorem find_and_replace_converged (file_path c find repl t : String)
    (hfind : find ≠ "")
    (h1 : (find_and_replace file_path (some c) find repl).2 = some t)
    (h2 : pyCount t find = 0) :
    find_and_replace file_path (some t) find repl
      = ("No matches found for: " ++ pySlice find 50 ++ "...", some t) := by
  have hz : pyCountNE find.data t.data.length t.data = 0 := by
    unfold pyCount at h2
    rwa [if_neg hfind] at h2
  have hrepl : pyReplace t find repl = t := by
    unfold pyReplace
    rw [if_neg hfind]
    exact congrArg String.mk (pyReplaceNE_of_count_zero find.data repl.data t.data.length t.data hz)
  simp [find_and_replace, hrepl]

/-- C5 witness: text `"x a y"`, `find = "a"`, `replace = "b"`: the first call
produces `"x b y"`, and the second call reports no matches and leaves the
content identical. -/
theorem find_and_replace_converged_witness :
    "a" ≠ ""
    ∧ (find_and_replace "f.txt" (some "x a y") "a" "b").2 = some "x b y"
    ∧ pyCount "x b y" "a" = 0
    ∧ find_and_replace "f.txt" (some "x b y") "a" "b"
        = ("No matches found for: a...", some "x b y") :=
  ⟨by decide, rfl, by decide,
   find_and_replace_converged "f.txt" "x a y" "a" "b" "x b y" (by decide) rfl (by decide)⟩

/-- C6: on an existing file whose content the CSS-variable pattern for the
(normalized) name matches nowhere, `update_css_variable` reports the
"not found" message and returns the content byte-identical — no write
occurs. -/
theorem update_css_variable_not_found (file_path content variable_name new_value : String)
    (h : (cssSubn (normCssName variable_name).data new_value.data
            content.data.length content.data).2 = 0) :
    update_css_variable file_path (some content) variable_name new_value
      = ("CSS variable not found: " ++ normCssName variable_name, some content) := by
  show (let name := normCssName variable_name;
        let r := cssSubn name.data new_value.data content.data.length content.data;
        if r.2 = 0 then ("CSS variable not found: " ++ name, some content)
        else ("Updated " ++ name ++ " to " ++ new_value, some ⟨r.1⟩)) = _
  simp only []
  rw [if_pos h]

/-- C6 witness: a stylesheet declaring no `--primary` variable is reported
not-found and returned unchanged. -/
theorem update_css_variable_not_found_witness :
    (cssSubn (normCssName "primary").data "#fff".data
        "body { color: red; }".data.length "body { color: red; }".data).2 = 0
    ∧ update_css_variable "styles.css" (some "body { color: red; }") "primary" "#fff"
        = ("CSS variable not found: --primary", some "body { color: red; }") :=
  ⟨by decide,
   update_css_variable_not_found "styles.css" "body { color: red; }" "primary" "#fff" (by decide)⟩

/-- C7: the validation half of the claim holds — a resume carrying only a
non-empty name and a non-empty skills list passes `validate_input` — but the
generation pipeline never produces a Portfolio: the first statement of its
`try` block imports `portfolio_creator` from `agents.teams.generation_team`,
and that module defines no such name, so every validated input ends in
`GenerationError`.  Evaluation at the failing input (name "Ada", skills
["Lean"], no email, no experience). -/
theorem minimal_resume_generation_fails :
    validate_input { name := some "Ada", skills := ["Lean"] } = (true, none)
    ∧ generation_team_exports.contains "portfolio_creator" = false
    ∧ generate_portfolio { name := some "Ada", skills := ["Lean"] } "one_temp"
        = GenerationResult.generationFailure := by
  exact ⟨rfl, by decide, rfl⟩

/-- C8: for every portfolio dictionary, `export_portfolio` with a format
outside `{json, yaml, html_preview}` (such as `"xml"`) fails with
`ValidationError` — the check precedes the `try` block, so no export branch
runs and no state changes. -/
theorem export_rejects_unknown_format (fields : List (String × Json)) (format : String)
    (hf : (["json", "yaml", "html_preview"].contains format) = false) :
    export_portfolio (.obj fields) format
      = .validationErr ("Unsupported export format: " ++ format) := by
  simp only [export_portfolio]
  rw [hf]
  rfl

/-- C8 witness: exporting an empty portfolio dictionary as `"xml"`. -/
theorem export_rejects_unknown_format_witness :
    (["json", "yaml", "html_preview"].contains "xml") = false
    ∧ export_portfolio (.obj []) "xml"
        = .validationErr "Unsupported export format: xml" :=
  ⟨by decide, export_rejects_unknown_format [] "xml" (by decide)⟩

/-- C9: when the template directory exists, `copy_template` installs an
exact copy of the template tree at the destination name — any previous
directory there is deleted first (`rmtree` precedes `copytree` in the
performed operations), so prior content is replaced, not merged or
preserved. -/
theorem copy_template_replaces (templates output : List (String × DirTree))
    (template_id : String) (output_name : Option String) (output_dir : String)
    (tree : DirTree)
    (ht : dlookup templates template_id = some tree) :
    dlookup (copy_template templates output template_id output_name output_dir).2.1
        (destNameOf output_name template_id) = some tree
    ∧ ((dlookup output (destNameOf output_name template_id)).isSome = true →
        (copy_template templates output template_id output_name output_dir).2.2
          = [FsOp.rmtreeOp (destNameOf output_name template_id),
             FsOp.copytreeOp (destNameOf output_name template_id)]) := by
  constructor
  · simp [copy_template, ht, dlookup_setEntry]
  · intro hex
    simp [copy_template, ht, hex]

/-- C9 witness: copying template `one_temp` over an existing working
directory of the same name: the old tree is removed before the copy and the
destination afterwards holds exactly the template tree. -/
theorem copy_template_replaces_witness :
    dlookup [("one_temp", DirTree.file "tpl")] "one_temp" = some (DirTree.file "tpl")
    ∧ dlookup
        (copy_template [("one_temp", DirTree.file "tpl")] [("one_temp", DirTree.file "old")]
          "one_temp" none "output").2.1 "one_temp" = some (DirTree.file "tpl")
    ∧ (copy_template [("one_temp", DirTree.file "tpl")] [("one_temp", DirTree.file "old")]
          "one_temp" none "output").2.2
        = [FsOp.rmtreeOp "one_temp", FsOp.copytreeOp "one_temp"] :=
  ⟨rfl,
   (copy_template_replaces [("one_temp", DirTree.file "tpl")] [("one_temp", DirTree.file "old")]
      "one_temp" none "output" (DirTree.file "tpl") rfl).1,
   (copy_template_replaces [("one_temp", DirTree.file "tpl")] [("one_temp", DirTree.file "old")]
      "one_temp" none "output" (DirTree.file "tpl") rfl).2 rfl⟩

/-- C10: on a parsing JSON file, updating a dot-notation key whose
intermediate components are absent creates an empty object per missing
component, sets the leaf to the value, and reports success (never a
key-not-found error): the file afterwards holds the original fields plus the
appended nested chain. -/
theorem update_json_creates_missing_path (file_path : String)
    (fields : List (String × Json)) (dotkey k : String) (rest : List String) (v : Json)
    (hsplit : pySplitDot dotkey = k :: rest) (hrest : rest ≠ [])
    (habs : jlookup fields k = none) :
    update_json_file file_path (.parsed (.obj fields)) [(dotkey, v)]
      = (.output ("Updated 1 key(s) in " ++ file_path),
         .parsed (.obj (fields ++ [(k, buildNested rest v)]))) := by
  cases rest with
  | nil => exact absurd rfl hrest
  | cons k2 rs =>
    have hbuild := setNested_empty_build (k2 :: rs) v (by simp)
    have hsn : setNested (.obj fields) (k :: k2 :: rs) v
        = some (.obj (fields ++ [(k, buildNested (k2 :: rs) v)])) := by
      simp only [setNested, habs, hbuild, setKey_absent k _ fields habs]
    have hfold : ("Updated " ++ toString (1 : Nat) ++ " key(s) in ")
        = "Updated 1 key(s) in " := rfl
    simp [update_json_file, applyUpdates, hsplit, hsn, hfold]

/-- C10 witness: updating key `"a.b"` in `{"x": 1}` creates `{"a": {"b": v}}`
and reports one updated key. -/
theorem update_json_creates_missing_path_witness :
    pySplitDot "a.b" = ["a", "b"] ∧ (["b"] : List String) ≠ []
    ∧ jlookup [("x", Json.num 1)] "a" = none
    ∧ update_json_file "cfg.json" (.parsed (.obj [("x", Json.num 1)])) [("a.b", Json.str "y")]
        = (.output "Updated 1 key(s) in cfg.json",
           .parsed (.obj [("x", Json.num 1), ("a", Json.obj [("b", Json.str "y")])])) :=
  ⟨rfl, by simp, rfl,
   update_json_creates_missing_path "cfg.json" [("x", Json.num 1)] "a.b" "a" ["b"]
     (Json.str "y") rfl (by simp) rfl⟩

end Showcase
